import Mathlib

/-!
Verification of the visibility_sim_web repository's natural-language
specification against a shallow embedding of its Python source.

Embedding conventions:
* Python floats are modelled as rationals (`ℚ`); decimal literals parsed by
  `float(...)` are exact in `ℚ`, and the claims under study concern only the
  structure of the computations, not IEEE-754 rounding.
* Python strings are modelled as `List Char`.
* The externally compiled C++ `visibility_polygon` module is not part of the
  repository's Python source; the spec treats it as an opaque geometry oracle
  with a fixed contract, so every handler is parameterised by an `Oracle`
  function and theorems quantify over it.
* Flask handlers are modelled as total functions into `Except`, where
  `.error` corresponds to a `status: error` JSON response (both the 400
  validation responses and the 500 exception responses) and `.ok` to the
  `status: success` payload.  Console `print` output is not modelled.
-/

attribute [local semireducible] Rat.mul Rat.inv Rat.add Rat.sub

/-- A 2-D point, `(x, y)` (model of the Python coordinate tuples). -/
abbrev Pt := ℚ × ℚ

/-- Python `int(q)`: truncation toward zero (model of `int(...)` on a float),
computed as truncating division of the reduced numerator by the denominator. -/
def pyInt (q : ℚ) : ℤ := q.num.tdiv q.den

/-! ## Path decoder: `SVGFloorplanProcessor._parse_path_to_points`

The Python method first finds command groups with the regex
`[MmLlHhVvZz][^MmLlHhVvZz]*`, then per group extracts numbers with
`-?\d+\.?\d*`, and runs a cursor over the commands. -/

/-- Characters recognised as SVG path command letters by the regexes in
`_parse_path_to_points` and `clean_svg`. -/
def isCmdLetter (c : Char) : Bool :=
  c == 'M' || c == 'm' || c == 'L' || c == 'l' || c == 'H' || c == 'h' ||
  c == 'V' || c == 'v' || c == 'Z' || c == 'z'

/-- Numeric value of one decimal digit character. -/
def digitVal (c : Char) : ℕ := c.toNat - '0'.toNat

/-- Value of a decimal digit string (most significant digit first). -/
def natOfDigits (ds : List Char) : ℕ := ds.foldl (fun n c => 10 * n + digitVal c) 0

/-- Value of the digits after a decimal point. -/
def fracOfDigits (ds : List Char) : ℚ := (natOfDigits ds : ℚ) / (10 ^ ds.length)

/-- Worker for `scanNumbers`; structural on a fuel argument so the kernel can
evaluate it (each step consumes at least one character, so fuel equal to the
input length never runs out). -/
def scanNumbersAux : ℕ → List Char → List ℚ
  | 0, _ => []
  | _ + 1, [] => []
  | fuel + 1, c :: rest =>
    if (c == '-' && rest.head?.any Char.isDigit) = true then
      let ds := rest.takeWhile Char.isDigit
      match rest.dropWhile Char.isDigit with
      | '.' :: r2 =>
        (-((natOfDigits ds : ℚ) + fracOfDigits (r2.takeWhile Char.isDigit)))
          :: scanNumbersAux fuel (r2.dropWhile Char.isDigit)
      | r1 =>
        (-(natOfDigits ds : ℚ)) :: scanNumbersAux fuel r1
    else if c.isDigit = true then
      let ds := (c :: rest).takeWhile Char.isDigit
      match (c :: rest).dropWhile Char.isDigit with
      | '.' :: r2 =>
        ((natOfDigits ds : ℚ) + fracOfDigits (r2.takeWhile Char.isDigit))
          :: scanNumbersAux fuel (r2.dropWhile Char.isDigit)
      | r1 =>
        ((natOfDigits ds : ℚ)) :: scanNumbersAux fuel r1
    else
      scanNumbersAux fuel rest

/-- Model of `re.findall(r'-?\d+\.?\d*', coords)` followed by `float(...)` on
each match: scan left to right; at each position try to match an optional
minus sign (only when immediately followed by a digit, as `\d+` demands one),
a nonempty run of integer digits, and optionally a dot with a (possibly
empty) run of fraction digits; on failure advance one character. -/
def scanNumbers (l : List Char) : List ℚ := scanNumbersAux l.length l

/-- Worker for `findCommandGroups`, fuel-structural like `scanNumbersAux`. -/
def findCommandGroupsAux : ℕ → List Char → List (Char × List Char)
  | 0, _ => []
  | _ + 1, [] => []
  | fuel + 1, c :: rest =>
    if isCmdLetter c then
      (c, rest.takeWhile (fun d => !isCmdLetter d)) ::
        findCommandGroupsAux fuel (rest.dropWhile (fun d => !isCmdLetter d))
    else
      findCommandGroupsAux fuel rest

/-- Model of `re.findall(r'[MmLlHhVvZz][^MmLlHhVvZz]*', path_string)`: each
group is its command letter plus the payload up to the next command letter;
characters before the first command letter are skipped. -/
def findCommandGroups (l : List Char) : List (Char × List Char) :=
  findCommandGroupsAux l.length l

/-- Cursor run for `M`/`m`/`L`/`l`: consume the numeric payload in coordinate
pairs, moving the cursor (overwrite when absolute, offset when relative) and
emitting one point per complete pair; a trailing unpaired number is ignored.
This is the common effect of the Python `Mm` and `Ll` branches. -/
def processPairs (absMode : Bool) : Pt → List ℚ → Pt × List Pt
  | cur, a :: b :: rest =>
    let cur' : Pt := if absMode then (a, b) else (cur.1 + a, cur.2 + b)
    let res := processPairs absMode cur' rest
    (res.1, cur' :: res.2)
  | cur, _ => (cur, [])

/-- Cursor run for `H`/`h` (`horiz = true`) and `V`/`v` (`horiz = false`):
one point per number, updating only the corresponding coordinate. -/
def processSingles (absMode horiz : Bool) : Pt → List ℚ → Pt × List Pt
  | cur, n :: rest =>
    let cur' : Pt :=
      if horiz then (if absMode then (n, cur.2) else (cur.1 + n, cur.2))
      else (if absMode then (cur.1, n) else (cur.1, cur.2 + n))
    let res := processSingles absMode horiz cur' rest
    (res.1, cur' :: res.2)
  | cur, [] => (cur, [])

/-- One iteration of the Python `for cmd in commands` loop: dispatch on the
command letter, returning the new cursor and the emitted points.  `Z`/`z`
emit nothing (the closing segment is implied, not materialised). -/
def processCommand (cur : Pt) (cmd : Char × List Char) : Pt × List Pt :=
  let numbers := scanNumbers cmd.2
  if cmd.1 == 'M' then processPairs true cur numbers
  else if cmd.1 == 'm' then processPairs false cur numbers
  else if cmd.1 == 'L' then processPairs true cur numbers
  else if cmd.1 == 'l' then processPairs false cur numbers
  else if cmd.1 == 'H' then processSingles true true cur numbers
  else if cmd.1 == 'h' then processSingles false true cur numbers
  else if cmd.1 == 'V' then processSingles true false cur numbers
  else if cmd.1 == 'v' then processSingles false false cur numbers
  else (cur, [])

/-- Run all command groups with a shared cursor, concatenating the emitted
points (the cursor starts at `(0.0, 0.0)` in the Python method). -/
def runCommands : Pt → List (Char × List Char) → List Pt
  | _, [] => []
  | cur, cmd :: rest =>
    let res := processCommand cur cmd
    res.2 ++ runCommands res.1 rest

/-- One iteration of the consecutive-duplicate collapse loop:
`if not cleaned_points or point != cleaned_points[-1]: append`. -/
def dedupStep (acc : List Pt) (p : Pt) : List Pt :=
  if acc.getLast? ≠ some p then acc ++ [p] else acc

/-- `cleaned_points` after the collapse loop. -/
def dedupConsecutive (ps : List Pt) : List Pt := ps.foldl dedupStep []

/-- Final step of `_parse_path_to_points`: drop the last point when it
duplicates the first (`len > 1 and cleaned_points[0] == cleaned_points[-1]`). -/
def dropClosingDup (ps : List Pt) : List Pt :=
  if 1 < ps.length ∧ ps.head? = ps.getLast? then ps.dropLast else ps

/-- Model of `SVGFloorplanProcessor._parse_path_to_points`. -/
def parse_path_to_points (s : List Char) : List Pt :=
  dropClosingDup (dedupConsecutive (runCommands (0, 0) (findCommandGroups s)))

/-! ## Obstacle extractor: `SVGFloorplanProcessor.clean_svg`

For each path element with a non-empty `d` attribute the method splits the
description with `re.split(r'(?=[Mm])', d)` (a split immediately before every
`M`/`m` character), strips each piece, drops empty pieces, decodes only the
first remaining sub-path, and appends a geometry exactly when the decoding
yields at least 3 points. -/

/-- Python `str.strip()` (whitespace removal at both ends). -/
def stripWs (l : List Char) : List Char :=
  ((l.dropWhile Char.isWhitespace).reverse.dropWhile Char.isWhitespace).reverse

/-- Worker for `splitSubpaths`: `acc` holds the current piece reversed. -/
def splitBeforeMoveAux (acc : List Char) : List Char → List (List Char)
  | [] => [acc.reverse]
  | c :: rest =>
    if c == 'M' || c == 'm' then acc.reverse :: splitBeforeMoveAux [c] rest
    else splitBeforeMoveAux (c :: acc) rest

/-- Model of `re.split(r'(?=[Mm])', d)`: cut immediately before every `M`/`m`
character (the first piece may be empty when `d` starts with a move). -/
def splitSubpaths (s : List Char) : List (List Char) := splitBeforeMoveAux [] s

/-- The stripped, non-empty sub-paths of a path description
(`[sp.strip() for sp in subpaths if sp.strip()]`). -/
def subpathsOf (d : List Char) : List (List Char) :=
  ((splitSubpaths d).map stripWs).filter (· ≠ [])

/-- One iteration of the `clean_svg` path loop, for the `points` data of the
appended geometry: skip elements whose `d` attribute is missing or empty,
decode only the first sub-path, and keep it only when it has ≥ 3 points.
(The Python `try` around the decoder never fires: the decoder is total.) -/
def extractObstacle (dAttr : Option (List Char)) : Option (List Pt) :=
  match dAttr with
  | none => none
  | some d =>
    if d = [] then none
    else
      match subpathsOf d with
      | [] => none
      | outer :: _ =>
        let pts := parse_path_to_points outer
        if 3 ≤ pts.length then some pts else none

/-- A drawable path element: its `d` attribute and the `id` of its parent
group as resolved through `parent_map` (both nullable). -/
structure PathElem where
  d : Option (List Char)
  group : Option (List Char)
deriving DecidableEq

/-- The geometry record `clean_svg` appends for one path element
(restricted to the fields the API payload exposes: points and group). -/
def extractGeometry (e : PathElem) : Option (List Pt × Option (List Char)) :=
  (extractObstacle e.d).map (fun pts => (pts, e.group))

/-- Model of `SVGFloorplanProcessor.clean_svg`: the `geometries` list after
processing every path element in document order. -/
def clean_svg (paths : List PathElem) : List (List Pt × Option (List Char)) :=
  paths.filterMap extractGeometry

/-- The viewBox read from the document root at import time. -/
structure ViewBox where
  x : ℚ
  y : ℚ
  width : ℚ
  height : ℚ
deriving DecidableEq

/-- Success payload of the `/api/import` route: the cleaned geometries, the
viewbox, and `obstacleCount = len(geometries)`.  (The `message` string and
the temp-file plumbing are presentation/transport and are not modelled.) -/
structure ImportData where
  geometries : List (List Pt × Option (List Char))
  viewbox : ViewBox
  obstacleCount : ℕ
deriving DecidableEq

/-- Model of the `import_floorplan` route body after the SVG has been read:
run `clean_svg` over the document's path elements and build the payload. -/
def import_floorplan_handler (vb : ViewBox) (paths : List PathElem) : ImportData :=
  let geoms := clean_svg paths
  { geometries := geoms, viewbox := vb, obstacleCount := geoms.length }

/-! ## Point-in-polygon: `app.is_point_in_polygon` -/

/-- The body of the `if` in the ray-casting loop: the edge from
`vertices[j] = vj` to `vertices[i] = vi` toggles the parity exactly when the
edge straddles the horizontal line through `y` and the intersection of the
edge with that line is strictly to the right of `x`.  The Python `and`
short-circuits, so the division by `yj - yi` is evaluated only when the first
conjunct holds. -/
def edgeToggles (x y : ℚ) (vi vj : Pt) : Bool :=
  (decide (vi.2 > y) != decide (vj.2 > y)) &&
    decide (x < (vj.1 - vi.1) * (y - vi.2) / (vj.2 - vi.2) + vi.1)

/-- Model of `app.is_point_in_polygon`: even-odd ray casting with `j`
starting at the last index and trailing `i` by one. -/
def is_point_in_polygon (point : Pt) (vertices : List Pt) : Bool :=
  let n := vertices.length
  (List.range n).foldl
    (fun inside i =>
      let vi := vertices.getD i (0, 0)
      let vj := vertices.getD ((i + n - 1) % n) (0, 0)
      if edgeToggles point.1 point.2 vi vj then !inside else inside)
    false

/-! ## Visibility field engine: the route handlers in `app.py`

The C++ `visibility_polygon` module is external to the repository; following
the spec's "geometry oracle" contract it is modelled as an opaque function
parameter.  Each handler is a total function into `Except`: `.error` stands
for a `status: error` JSON response, `.ok` for the success payload. -/

/-- `compute_visibility_polygon(pov, obstacles, width, height, ray_length)`
of the external module. -/
abbrev Oracle := Pt → List (List Pt) → ℤ → ℤ → ℚ → List Pt

/-- `clip_circle_with_visibility_polygon(polygon, center, radius, segments)`
of the external module. -/
abbrev ClipOracle := List Pt → Pt → ℚ → ℕ → List Pt

/-- The obstacle filter every handler applies before querying the oracle:
`if len(points) >= 3: obstacle_polygons.append(points)`. -/
def filteredPolygons (obstacles : List (List Pt)) : List (List Pt) :=
  obstacles.filter (fun pts => 3 ≤ pts.length)

/-- Vertex centroid (arithmetic mean of the vertices), as computed in the
heatmap loop: `sum(p[k]) / len(points)`. -/
def centroid (pts : List Pt) : Pt :=
  ((pts.map Prod.fst).sum / pts.length, (pts.map Prod.snd).sum / pts.length)

/-- `[polys[i] for i in range(len(polys)) if i != k]` (the index is compared
as a Python int, so an out-of-range or negative `k` excludes nothing). -/
def excludeIdx (polys : List (List Pt)) (k : ℤ) : List (List Pt) :=
  (polys.enum.filter (fun pr => (pr.1 : ℤ) ≠ k)).map Prod.snd

/-- A JSON viewpoint object: absent entirely, or a dict with optional
`x`/`y` entries (`'x' not in viewpoint` is modelled by a `none` component). -/
abbrev RawViewpoint := Option (Option ℚ × Option ℚ)

/-- The validation `if not viewpoint or 'x' not in viewpoint or 'y' not in
viewpoint`: returns the point when it passes. -/
def viewpointValid : RawViewpoint → Option Pt
  | some (some x, some y) => some (x, y)
  | _ => none

/-- Request body of `/api/visibility-polygon` (defaults are applied by the
caller of the handler model, as `data.get` does). -/
structure VisRequest where
  viewpoint : RawViewpoint
  obstacles : List (List Pt)
  canvasWidth : ℚ
  canvasHeight : ℚ
deriving DecidableEq

/-- Success payload of `/api/visibility-polygon`. -/
structure VisData where
  visibilityPolygon : List Pt
  viewpoint : Pt
  obstacleCount : ℕ
deriving DecidableEq

/-- Model of the `compute_visibility_polygon` route: validate the viewpoint,
filter out obstacles with fewer than 3 points, query the oracle with
`ray_length=3000.0`, and build the payload. -/
def visibility_polygon_handler (oracle : Oracle) (req? : Option VisRequest) :
    Except (List Char) VisData :=
  match req? with
  | none => .error "No data provided".toList
  | some req =>
    match viewpointValid req.viewpoint with
    | none => .error "Invalid viewpoint data".toList
    | some vp =>
      let polys := filteredPolygons req.obstacles
      .ok { visibilityPolygon :=
              oracle vp polys (pyInt req.canvasWidth) (pyInt req.canvasHeight) 3000,
            viewpoint := vp,
            obstacleCount := polys.length }

/-- Request body of `/api/allocentric-visibility`. -/
structure AlloRequest where
  featureCenter : RawViewpoint
  obstacles : List (List Pt)
  canvasWidth : ℚ
  canvasHeight : ℚ
  rayLength : ℚ
  sensitivity1 : ℚ
  sensitivity2 : ℚ
  showSensitivity : Bool
  excludeObstacleIndex : Option ℤ
deriving DecidableEq

/-- Success payload of `/api/allocentric-visibility`; the clipped polygons
and radii are present only in sensitivity mode. -/
structure AlloData where
  allocentricPolygon : List Pt
  featureCenter : Pt
  excludedObstacleIndex : ℤ
  clipped1 : Option (List Pt)
  clipped2 : Option (List Pt)
  radius1 : Option ℚ
  radius2 : Option ℚ
deriving DecidableEq

/-- Model of the `compute_allocentric_visibility` route.  The constants 200,
100 and 5 are `VISIBILITY_VALUE_MULTIPLIER`, `DETAIL_VISIBILITY_MULTIPLIER`
and `SQUARE_VISIBILITY_SCALE`. -/
def allocentric_handler (oracle : Oracle) (clip : ClipOracle)
    (req? : Option AlloRequest) : Except (List Char) AlloData :=
  match req? with
  | none => .error "No data provided".toList
  | some req =>
    match viewpointValid req.featureCenter with
    | none => .error "Invalid feature center".toList
    | some fc =>
      match req.excludeObstacleIndex with
      | none => .error "No obstacle index provided".toList
      | some k =>
        let polys := filteredPolygons req.obstacles
        let modified := excludeIdx polys k
        let visPts :=
          oracle fc modified (pyInt req.canvasWidth) (pyInt req.canvasHeight) req.rayLength
        let base : AlloData :=
          { allocentricPolygon := visPts, featureCenter := fc,
            excludedObstacleIndex := k, clipped1 := none, clipped2 := none,
            radius1 := none, radius2 := none }
        if req.showSensitivity then
          let radius1 := req.sensitivity1 * 200 * 5
          let radius2 := req.sensitivity2 * 100 * 5
          .ok { base with
                clipped1 := some (clip visPts fc radius1 128),
                clipped2 := some (clip visPts fc radius2 128),
                radius1 := some radius1, radius2 := some radius2 }
        else .ok base

/-! ## Heatmap: `compute_visibility_heatmap` -/

/-- Request body of `/api/visibility-heatmap`. -/
structure HeatmapRequest where
  obstacles : List (List Pt)
  canvasWidth : ℚ
  canvasHeight : ℚ
  gridResolution : ℚ
  rayLength : ℚ
deriving DecidableEq

/-- `num_squares_x = int(canvas_width / square_size)` (a non-positive count
behaves like 0: `range` of it is empty). -/
def heatNumX (req : HeatmapRequest) : ℕ :=
  (pyInt (req.canvasWidth / req.gridResolution)).toNat

/-- `num_squares_y = int(canvas_height / square_size)`. -/
def heatNumY (req : HeatmapRequest) : ℕ :=
  (pyInt (req.canvasHeight / req.gridResolution)).toNat

/-- `object_indices`: the loop `for i in range(1, len(obstacle_polygons))`. -/
def objectIndices (polys : List (List Pt)) : List ℕ :=
  (List.range polys.length).drop 1

/-- `object_centers`: the vertex centroid of each non-boundary polygon. -/
def objectCenters (polys : List (List Pt)) : List Pt :=
  (objectIndices polys).map (fun i => centroid (polys.getD i []))

/-- The visibility polygon the heatmap loop computes for obstacle `i`:
oracle query from the obstacle's centroid with obstacle `i` excluded. -/
def visPolyFor (oracle : Oracle) (req : HeatmapRequest) (polys : List (List Pt))
    (i : ℕ) : List Pt :=
  oracle (centroid (polys.getD i []))
    (excludeIdx polys (i : ℤ))
    (pyInt req.canvasWidth) (pyInt req.canvasHeight) req.rayLength

/-- Grid-cell center: `(gx * square_size + square_size/2, gy * square_size +
square_size/2)`. -/
def cellCenter (r : ℚ) (gx gy : ℕ) : Pt :=
  (gx * r + r / 2, gy * r + r / 2)

/-- One pass of the inner double loop: increment every in-range cell whose
center lies in the current visibility polygon (the grid is modelled as a
total function on (row, column) indices; cells outside the range are never
touched by the Python loop and keep their value). -/
def gridAccum (numX numY : ℕ) (r : ℚ) (vis : List Pt) (g : ℕ → ℕ → ℕ) :
    ℕ → ℕ → ℕ :=
  fun gy gx =>
    if gy < numY ∧ gx < numX ∧ is_point_in_polygon (cellCenter r gx gy) vis = true
    then g gy gx + 1 else g gy gx

/-- `grid_scores` after the loop over all object centers. -/
def heatGridScores (oracle : Oracle) (req : HeatmapRequest) : ℕ → ℕ → ℕ :=
  let polys := filteredPolygons req.obstacles
  (objectIndices polys).foldl
    (fun g i =>
      gridAccum (heatNumX req) (heatNumY req) req.gridResolution
        (visPolyFor oracle req polys i) g)
    (fun _ _ => 0)

/-- `max_score = max(max(row) for row in grid_scores)`; for the non-empty
grids on the success path this equals the Python `max` (`foldl max 0` over
naturals). -/
def heatMaxScore (oracle : Oracle) (req : HeatmapRequest) : ℕ :=
  let g := heatGridScores oracle req
  ((List.range (heatNumY req)).map
      (fun gy => ((List.range (heatNumX req)).map (g gy)).foldl max 0)).foldl max 0

/-- Model of `get_heatmap_color`, returning the `(r, g, b, a)` channel values
of the emitted `rgba(...)` string (string formatting is presentation and is
not modelled). -/
def get_heatmap_color (v : ℚ) : ℤ × ℤ × ℤ × ℤ :=
  if v ≤ 0 then (0, 0, 0, 0)
  else if v ≤ 1/4 then
    let t := v / (1/4)
    (0, pyInt (t * 128), 255, 150)
  else if v ≤ 1/2 then
    let t := (v - 1/4) / (1/4)
    (0, 128 + pyInt (t * 127), 255 - pyInt (t * 255), 150)
  else if v ≤ 3/4 then
    let t := (v - 1/2) / (1/4)
    (pyInt (t * 255), 255, 0, 150)
  else
    let t := (v - 3/4) / (1/4)
    (255, 255 - pyInt (t * 255), 0, 150)

/-- One emitted heatmap cell. -/
structure HeatPixel where
  points : List Pt
  score : ℕ
  normalized : ℚ
  color : ℤ × ℤ × ℤ × ℤ
deriving DecidableEq

/-- The dictionary appended to `heatmap_pixels` for cell `(gy, gx)`. -/
def mkHeatPixel (r : ℚ) (maxScore : ℕ) (gx gy score : ℕ) : HeatPixel :=
  let sx : ℚ := gx * r
  let sy : ℚ := gy * r
  let ex := sx + r
  let ey := sy + r
  let normalized : ℚ := if 0 < maxScore then (score : ℚ) / maxScore else 0
  { points := [(sx, sy), (ex, sy), (ex, ey), (sx, ey)],
    score := score, normalized := normalized,
    color := get_heatmap_color normalized }

/-- `heatmap_pixels`: scan the grid in row-major order and emit the cells
with positive score. -/
def heatPixels (oracle : Oracle) (req : HeatmapRequest) : List HeatPixel :=
  let g := heatGridScores oracle req
  let m := heatMaxScore oracle req
  ((List.range (heatNumY req)).map (fun gy =>
      (List.range (heatNumX req)).filterMap (fun gx =>
        if 0 < g gy gx then some (mkHeatPixel req.gridResolution m gx gy (g gy gx))
        else none))).flatten

/-- Success payload of `/api/visibility-heatmap`. -/
structure HeatmapData where
  pixels : List HeatPixel
  maxScore : ℕ
  gridResolution : ℚ
  objectCenterCount : ℕ
deriving DecidableEq

/-- Model of the `compute_visibility_heatmap` route.  When the grid is empty
in either dimension the Python code raises (`max()` on an empty sequence, or
a zero `grid_resolution` making `canvas_width / square_size` raise first) and
the route's `except` clause reports a `status: error` response; this is the
second `.error` branch. -/
def visibility_heatmap_handler (oracle : Oracle) (req? : Option HeatmapRequest) :
    Except (List Char) HeatmapData :=
  match req? with
  | none => .error "No data provided".toList
  | some req =>
    if req.obstacles.length < 2 then
      .error "Need at least 2 obstacles (boundary + objects)".toList
    else if heatNumX req = 0 ∨ heatNumY req = 0 then
      .error "Error computing heatmap: empty grid".toList
    else
      .ok { pixels := heatPixels oracle req,
            maxScore := heatMaxScore oracle req,
            gridResolution := req.gridResolution,
            objectCenterCount := (objectCenters (filteredPolygons req.obstacles)).length }

/-! ## Concrete inputs used by witnesses and counterexamples -/

/-- A trivial oracle (always returns the empty polygon); the handlers are
oracle-agnostic, so any concrete oracle serves for closed evaluations. -/
def constOracle : Oracle := fun _ _ _ _ _ => []

/-- A trivial clip oracle. -/
def constClip : ClipOracle := fun _ _ _ _ => []

/-- An oracle returning a fixed triangle, used to exercise the heatmap grid. -/
def triOracle : Oracle := fun _ _ _ _ _ => [(0, 0), (4, 0), (0, 4)]

/-- The square used by the spec's point-in-polygon test vectors. -/
def unitSquare100 : List Pt := [(0, 0), (100, 0), (100, 100), (0, 100)]

/-- A path description with a doubled (inner) second sub-path whose first
point coincides with the outer boundary's first point. -/
def doubledPath : List Char := "M0 0L10 0L10 10M0 0L1 1L2 2".toList

/-- A visibility request containing one degenerate (2-vertex) obstacle. -/
def reqShort : VisRequest :=
  { viewpoint := some (some 5, some 5), obstacles := [[(0, 0), (1, 0)]],
    canvasWidth := 10, canvasHeight := 10 }

/-- A visibility request with an invalid (incomplete) viewpoint. -/
def vreqBadVp : VisRequest :=
  { viewpoint := some (some 5, none), obstacles := [], canvasWidth := 10, canvasHeight := 10 }

/-- An allocentric request with a missing feature center. -/
def areqBadVp : AlloRequest :=
  { featureCenter := none, obstacles := [], canvasWidth := 10, canvasHeight := 10,
    rayLength := 3000, sensitivity1 := 1/2, sensitivity2 := 3/10,
    showSensitivity := false, excludeObstacleIndex := some 0 }

/-- A heatmap request with only one obstacle (fails validation). -/
def reqC6 : HeatmapRequest :=
  { obstacles := [[(0, 0), (4, 0), (0, 4)]], canvasWidth := 4, canvasHeight := 4,
    gridResolution := 2, rayLength := 3000 }

/-- A small valid heatmap request: a 2×2 canvas with one 2×2 cell, a square
boundary obstacle and one triangular object. -/
def reqHeat : HeatmapRequest :=
  { obstacles := [[(0, 0), (2, 0), (2, 2), (0, 2)], [(0, 0), (1, 0), (0, 1)]],
    canvasWidth := 2, canvasHeight := 2, gridResolution := 2, rayLength := 3000 }

/-- The payload `reqHeat` produces under `triOracle`: the single cell's
center `(1,1)` lies in the triangle `(0,0),(4,0),(0,4)`, so its score is 1. -/
def heatDataExpected : HeatmapData :=
  { pixels := [{ points := [(0, 0), (2, 0), (2, 2), (0, 2)], score := 1,
                 normalized := 1, color := (255, 0, 0, 150) }],
    maxScore := 1, gridResolution := 2, objectCenterCount := 1 }

/-- A well-formed document viewbox. -/
def vb0 : ViewBox := { x := 0, y := 0, width := 100, height := 100 }

/-- A path element whose description decodes to a 4-vertex polygon. -/
def goodElem : PathElem := { d := some "M0 0L10 0L10 10L0 10".toList, group := none }

/-- A path element whose description decodes to only 2 points (dropped). -/
def badElem : PathElem := { d := some "M0 0L10 0".toList, group := none }

/-- A visibility request whose obstacles are all retained. -/
def reqKeep : VisRequest :=
  { viewpoint := some (some 5, some 5), obstacles := [[(0, 0), (9, 0), (9, 9)]],
    canvasWidth := 10, canvasHeight := 10 }

/-- `reqKeep` plus one degenerate obstacle that the handler silently drops. -/
def reqKeepPlusDropped : VisRequest :=
  { viewpoint := some (some 5, some 5),
    obstacles := [[(0, 0), (9, 0), (9, 9)], [(1, 1), (2, 2)]],
    canvasWidth := 10, canvasHeight := 10 }

/-- The payload `reqKeep` produces under `constOracle`. -/
def visDataKeep : VisData :=
  { visibilityPolygon := [], viewpoint := (5, 5), obstacleCount := 1 }

/-- A command group whose numeric payload has no complete coordinate pair. -/
def junkCmd : Char × List Char := ('L', "junk 9".toList)

/-- The malformed-payload predicate of the decoder's skip policy: a
pair-consuming command with fewer than two numbers, a single-coordinate
command with no number at all, or a close command. -/
abbrev noCompletePayload (cmd : Char × List Char) : Prop :=
  ((cmd.1 = 'M' ∨ cmd.1 = 'm' ∨ cmd.1 = 'L' ∨ cmd.1 = 'l') ∧
      (scanNumbers cmd.2).length < 2) ∨
  ((cmd.1 = 'H' ∨ cmd.1 = 'h' ∨ cmd.1 = 'V' ∨ cmd.1 = 'v') ∧
      scanNumbers cmd.2 = []) ∨
  cmd.1 = 'Z' ∨ cmd.1 = 'z'

/-! ## Helper lemmas -/

/-- Python `int()` truncation agrees with `⌊·⌋` on non-negative rationals. -/
theorem pyInt_eq_floor (q : ℚ) (h : 0 ≤ q) : pyInt q = ⌊q⌋ := by
  rw [pyInt, Rat.floor_def]
  exact Int.tdiv_eq_ediv (Rat.num_nonneg.mpr h) (Int.ofNat_nonneg _)

/-- The duplicate-collapse step preserves the no-adjacent-duplicates chain. -/
theorem chain_ne_dedupStep (acc : List Pt) (p : Pt)
    (h : acc.Chain' (· ≠ ·)) : (dedupStep acc p).Chain' (· ≠ ·) := by
  rw [dedupStep]
  split
  · next hne =>
    rw [List.chain'_append]
    refine ⟨h, List.chain'_singleton p, ?_⟩
    intro x hx y hy
    simp only [List.head?_cons, Option.mem_def, Option.some.injEq] at hy
    subst hy
    intro hxy
    exact hne (by rw [← hxy]; exact hx)
  · exact h

/-- The collapse loop yields a list with no adjacent duplicates. -/
theorem chain_ne_dedup_foldl (l acc : List Pt) (h : acc.Chain' (· ≠ ·)) :
    (l.foldl dedupStep acc).Chain' (· ≠ ·) := by
  induction l generalizing acc with
  | nil => exact h
  | cons p t ih => exact ih _ (chain_ne_dedupStep acc p h)

/-- `dedupConsecutive` yields a list with no adjacent duplicates. -/
theorem chain_ne_dedupConsecutive (l : List Pt) :
    (dedupConsecutive l).Chain' (· ≠ ·) :=
  chain_ne_dedup_foldl l [] List.chain'_nil

/-- Dropping the duplicated closing point keeps the chain and makes the first
and last stored vertices distinct. -/
theorem dropClosingDup_spec (l : List Pt) (hc : l.Chain' (· ≠ ·)) :
    (dropClosingDup l).Chain' (· ≠ ·) ∧
    (1 < (dropClosingDup l).length →
      (dropClosingDup l).head? ≠ (dropClosingDup l).getLast?) := by
  rw [dropClosingDup]
  split
  · next hcond =>
    obtain ⟨hlen, hdup⟩ := hcond
    have hne : l ≠ [] := by
      intro h; rw [h] at hlen; simp at hlen
    have hdecomp : l.dropLast ++ [l.getLast hne] = l :=
      List.dropLast_append_getLast hne
    have hchain : (l.dropLast).Chain' (· ≠ ·) ∧
        ∀ x ∈ (l.dropLast).getLast?, ∀ y ∈ ([l.getLast hne] : List Pt).head?, x ≠ y := by
      have := List.chain'_append.mp (hdecomp ▸ hc)
      exact ⟨this.1, this.2.2⟩
    refine ⟨hchain.1, ?_⟩
    intro hlen2 heq
    have hheadl : l.head? = l.dropLast.head? := by
      rcases hD : l.dropLast with _ | ⟨a, t⟩
      · rw [hD] at hlen2
        simp at hlen2
      · conv_lhs => rw [← hdecomp]
        rw [hD]
        simp
    have hlast : l.getLast? = some (l.getLast hne) := List.getLast?_eq_getLast l hne
    have hx : l.dropLast.getLast? = some (l.getLast hne) := by
      rw [← heq, ← hheadl, hdup, hlast]
    exact hchain.2 _ hx _ (by simp) rfl
  · next hcond =>
    refine ⟨hc, ?_⟩
    intro hlen2
    rw [not_and_or] at hcond
    rcases hcond with h | h
    · exact absurd hlen2 h
    · exact h

/-- Counting via the grid-update fold: after processing the index list `L`,
an in-range cell's score is its initial value plus the number of indices
whose visibility polygon contains the cell center. -/
theorem gridAccum_foldl_count (numX numY : ℕ) (r : ℚ) (vis : ℕ → List Pt)
    (L : List ℕ) (g : ℕ → ℕ → ℕ) (gy gx : ℕ) (hy : gy < numY) (hx : gx < numX) :
    (L.foldl (fun acc i => gridAccum numX numY r (vis i) acc) g) gy gx =
      g gy gx + L.countP (fun i => is_point_in_polygon (cellCenter r gx gy) (vis i)) := by
  induction L generalizing g with
  | nil => simp
  | cons i t ih =>
    rw [List.foldl_cons, ih, List.countP_cons]
    by_cases h : is_point_in_polygon (cellCenter r gx gy) (vis i) = true
    · simp [gridAccum, hy, hx, h]
      omega
    · simp [gridAccum, hy, hx, h]

/-- `foldl max` never drops below its initial value. -/
theorem foldl_max_le_init (l : List ℕ) (b : ℕ) : b ≤ l.foldl max b := by
  induction l generalizing b with
  | nil => exact le_refl b
  | cons x t ih => exact le_trans (le_max_left b x) (ih (max b x))

/-- Every element of a list is bounded by `foldl max`. -/
theorem le_foldl_max (l : List ℕ) (b a : ℕ) (h : a ∈ l) : a ≤ l.foldl max b := by
  induction l generalizing b with
  | nil => cases h
  | cons x t ih =>
    rcases List.mem_cons.mp h with rfl | hmem
    · exact le_trans (le_max_right b a) (foldl_max_le_init t (max b a))
    · exact ih (max b x) hmem

/-- An in-range cell's score is bounded by the grid maximum. -/
theorem heatGridScores_le_max (oracle : Oracle) (req : HeatmapRequest) (gy gx : ℕ)
    (hy : gy < heatNumY req) (hx : gx < heatNumX req) :
    heatGridScores oracle req gy gx ≤ heatMaxScore oracle req := by
  have h1 : heatGridScores oracle req gy gx ∈
      (List.range (heatNumX req)).map (heatGridScores oracle req gy) :=
    List.mem_map.mpr ⟨gx, List.mem_range.mpr hx, rfl⟩
  have h2 : ((List.range (heatNumX req)).map (heatGridScores oracle req gy)).foldl max 0 ∈
      (List.range (heatNumY req)).map
        (fun gy =>
          ((List.range (heatNumX req)).map (heatGridScores oracle req gy)).foldl max 0) :=
    List.mem_map.mpr ⟨gy, List.mem_range.mpr hy, rfl⟩
  calc heatGridScores oracle req gy gx
      ≤ ((List.range (heatNumX req)).map (heatGridScores oracle req gy)).foldl max 0 :=
        le_foldl_max _ 0 _ h1
    _ ≤ heatMaxScore oracle req := le_foldl_max _ 0 _ h2

/-- Membership in the emitted pixel list, characterised by cell coordinates. -/
theorem mem_heatPixels_iff (oracle : Oracle) (req : HeatmapRequest) (px : HeatPixel) :
    px ∈ heatPixels oracle req ↔
      ∃ gy, gy < heatNumY req ∧ ∃ gx, gx < heatNumX req ∧
        0 < heatGridScores oracle req gy gx ∧
        px = mkHeatPixel req.gridResolution (heatMaxScore oracle req) gx gy
              (heatGridScores oracle req gy gx) := by
  constructor
  · intro hmem
    simp only [heatPixels] at hmem
    obtain ⟨inner, hinner, hpx⟩ := List.mem_flatten.mp hmem
    obtain ⟨gy, hgy, rfl⟩ := List.mem_map.mp hinner
    obtain ⟨gx, hgx, hsome⟩ := List.mem_filterMap.mp hpx
    rw [List.mem_range] at hgy hgx
    by_cases hpos : 0 < heatGridScores oracle req gy gx
    · rw [if_pos hpos] at hsome
      exact ⟨gy, hgy, gx, hgx, hpos, (Option.some_inj.mp hsome).symm⟩
    · rw [if_neg hpos] at hsome
      exact absurd hsome (by simp)
  · rintro ⟨gy, hgy, gx, hgx, hpos, rfl⟩
    simp only [heatPixels]
    refine List.mem_flatten.mpr
      ⟨_, List.mem_map.mpr ⟨gy, List.mem_range.mpr hgy, rfl⟩, ?_⟩
    refine List.mem_filterMap.mpr ⟨gx, List.mem_range.mpr hgx, ?_⟩
    rw [if_pos hpos]

/-- The emitted pixel list never exceeds the grid size. -/
theorem heatPixels_length_le (oracle : Oracle) (req : HeatmapRequest) :
    (heatPixels oracle req).length ≤ heatNumX req * heatNumY req := by
  rw [heatPixels]
  rw [List.length_flatten, List.map_map]
  have hb : ∀ x ∈ (List.range (heatNumY req)).map
      (List.length ∘ fun gy =>
        (List.range (heatNumX req)).filterMap (fun gx =>
          if 0 < heatGridScores oracle req gy gx
          then some (mkHeatPixel req.gridResolution (heatMaxScore oracle req) gx gy
            (heatGridScores oracle req gy gx))
          else none)),
      x ≤ heatNumX req := by
    intro x hx
    obtain ⟨gy, _, rfl⟩ := List.mem_map.mp hx
    simp only [Function.comp_apply]
    exact le_trans (List.length_filterMap_le _ _) (List.length_range _).le
  have hsum := List.sum_le_card_nsmul _ _ hb
  rw [List.length_map, List.length_range, smul_eq_mul] at hsum
  calc _ ≤ heatNumY req * heatNumX req := hsum
    _ = heatNumX req * heatNumY req := Nat.mul_comm _ _

/-- Inversion of a successful heatmap response. -/
theorem heatmap_handler_ok_elim (oracle : Oracle) (req : HeatmapRequest) (d : HeatmapData)
    (h : visibility_heatmap_handler oracle (some req) = .ok d) :
    2 ≤ req.obstacles.length ∧ 0 < heatNumX req ∧ 0 < heatNumY req ∧
      d = { pixels := heatPixels oracle req, maxScore := heatMaxScore oracle req,
            gridResolution := req.gridResolution,
            objectCenterCount := (objectCenters (filteredPolygons req.obstacles)).length } := by
  simp only [visibility_heatmap_handler] at h
  by_cases h1 : req.obstacles.length < 2
  · rw [if_pos h1] at h
    exact absurd h (by simp)
  · rw [if_neg h1] at h
    by_cases h2 : heatNumX req = 0 ∨ heatNumY req = 0
    · rw [if_pos h2] at h
      exact absurd h (by simp)
    · rw [if_neg h2] at h
      rw [not_or] at h2
      exact ⟨by omega, Nat.pos_of_ne_zero h2.1, Nat.pos_of_ne_zero h2.2,
        (Except.ok.inj h).symm⟩

/-- Inversion of a successful visibility-polygon response. -/
theorem vis_handler_ok_elim (oracle : Oracle) (req : VisRequest) (d : VisData)
    (h : visibility_polygon_handler oracle (some req) = .ok d) :
    ∃ vp, viewpointValid req.viewpoint = some vp ∧
      d = { visibilityPolygon := oracle vp (filteredPolygons req.obstacles)
              (pyInt req.canvasWidth) (pyInt req.canvasHeight) 3000,
            viewpoint := vp,
            obstacleCount := (filteredPolygons req.obstacles).length } := by
  simp only [visibility_polygon_handler] at h
  cases hv : viewpointValid req.viewpoint with
  | none =>
    rw [hv] at h
    exact absurd h (by simp)
  | some vp =>
    rw [hv] at h
    exact ⟨vp, rfl, (Except.ok.inj h).symm⟩

/-! ## Claim theorems -/

/-- **C4** — `is_point_in_polygon` implements the even-odd horizontal-ray
rule with the documented tie-break: `(50,50)` is inside the
`(0,0),(100,0),(100,100),(0,100)` square, `(150,50)` is outside, and an edge
whose two endpoints both lie at the test point's `y` never toggles the
crossing parity.  The function is pure, so classification of any fixed input
is identical across calls. -/
theorem ray_cast_rule_spec :
    is_point_in_polygon (50, 50) unitSquare100 = true ∧
    is_point_in_polygon (150, 50) unitSquare100 = false ∧
    ∀ (x y xi xj : ℚ) (b : Bool),
      (if edgeToggles x y (xi, y) (xj, y) then !b else b) = b := by
  refine ⟨by decide, by decide, ?_⟩
  intro x y xi xj b
  have h : edgeToggles x y (xi, y) (xj, y) = false := by
    simp [edgeToggles]
  rw [h]
  simp

/-- **C6** — a heatmap request with fewer than 2 obstacles fails with the
validation error for every oracle (so the oracle is never consulted and no
grid or payload is produced). -/
theorem heatmap_rejects_fewer_than_two_obstacles (oracle : Oracle)
    (req : HeatmapRequest) (h : req.obstacles.length < 2) :
    visibility_heatmap_handler oracle (some req) =
      .error "Need at least 2 obstacles (boundary + objects)".toList := by
  simp [visibility_heatmap_handler, h]

/-- Witness for `heatmap_rejects_fewer_than_two_obstacles`. -/
theorem heatmap_rejects_fewer_than_two_obstacles_witness :
    reqC6.obstacles.length < 2 ∧
    visibility_heatmap_handler constOracle (some reqC6) =
      .error "Need at least 2 obstacles (boundary + objects)".toList :=
  ⟨by decide, heatmap_rejects_fewer_than_two_obstacles constOracle reqC6 (by decide)⟩

/-- **C10** — the point-in-polygon test is total (it is a Lean function into
`Bool`, defined for every vertex list including the empty one and lists with
fewer than 3 vertices): the crossing condition forces the two edge-endpoint
`y` values apart, so the division's denominator `yj - yi` is nonzero whenever
it is evaluated, and the empty vertex list yields `false` for every point. -/
theorem point_in_polygon_total_spec :
    (∀ (y : ℚ) (vi vj : Pt),
        (decide (vi.2 > y) != decide (vj.2 > y)) = true → vj.2 - vi.2 ≠ 0) ∧
    ∀ p : Pt, is_point_in_polygon p [] = false := by
  constructor
  · intro y vi vj h hz
    rw [sub_eq_zero] at hz
    rw [hz] at h
    simp at h
  · intro p
    rfl

/-- Witness for `point_in_polygon_total_spec`. -/
theorem point_in_polygon_total_spec_witness :
    ((decide (((5 : ℚ), (0 : ℚ)).2 > 1) != decide (((5 : ℚ), (2 : ℚ)).2 > 1)) = true ∧
      ((5 : ℚ), (2 : ℚ)).2 - ((5 : ℚ), (0 : ℚ)).2 ≠ 0) ∧
    is_point_in_polygon (3, 3) [] = false :=
  ⟨⟨by decide, point_in_polygon_total_spec.1 1 (5, 0) (5, 2) (by decide)⟩,
   point_in_polygon_total_spec.2 (3, 3)⟩

/-- **C8** — the decoder's skip policy: a command group whose numeric payload
yields no complete coordinate (a pair-consuming `M`/`m`/`L`/`l` group with
fewer than two numbers, an `H`/`h`/`V`/`v` group with no number, or a close
command) contributes no points.  The decoder itself is a total function on
arbitrary strings — garbage characters are skipped by the group/number
scanners — so it returns a (possibly shorter) point list and cannot raise. -/
theorem decoder_skips_incomplete_groups (cur : Pt) (cmd : Char × List Char)
    (h : noCompletePayload cmd) : (processCommand cur cmd).2 = [] := by
  obtain ⟨c, payload⟩ := cmd
  have hpairs : ∀ (ab : Bool) (st : Pt) (l : List ℚ), l.length < 2 →
      (processPairs ab st l).2 = [] := by
    intro ab st l hl
    match l with
    | [] => rfl
    | [a] => rfl
    | a :: b :: t =>
      exfalso
      simp only [List.length_cons] at hl
      omega
  rcases h with ⟨hl, hn⟩ | ⟨hl, hn⟩ | hz | hz
  · rcases hl with rfl | rfl | rfl | rfl
    · exact hpairs true cur _ hn
    · exact hpairs false cur _ hn
    · exact hpairs true cur _ hn
    · exact hpairs false cur _ hn
  · rcases hl with rfl | rfl | rfl | rfl
    · show (processSingles true true cur (scanNumbers payload)).2 = []
      rw [hn]
      rfl
    · show (processSingles false true cur (scanNumbers payload)).2 = []
      rw [hn]
      rfl
    · show (processSingles true false cur (scanNumbers payload)).2 = []
      rw [hn]
      rfl
    · show (processSingles false false cur (scanNumbers payload)).2 = []
      rw [hn]
      rfl
  · simp only at hz
    subst hz
    rfl
  · simp only at hz
    subst hz
    rfl

/-- Witness for `decoder_skips_incomplete_groups`. -/
theorem decoder_skips_incomplete_groups_witness :
    noCompletePayload junkCmd ∧ (processCommand (0, 0) junkCmd).2 = [] :=
  ⟨by decide, decoder_skips_incomplete_groups (0, 0) junkCmd (by decide)⟩

/-- **C5 (counterexample)** — a request whose obstacle set contains a polygon
with fewer than 3 vertices does NOT produce a validation failure: the
degenerate obstacle is silently filtered out and the operation is attempted,
returning a success payload (shown here for the single-viewpoint handler and
an arbitrary fixed oracle). -/
theorem short_obstacle_no_validation_error :
    (∃ o ∈ reqShort.obstacles, o.length < 3) ∧
    visibility_polygon_handler constOracle (some reqShort) =
      .ok { visibilityPolygon := [], viewpoint := (5, 5), obstacleCount := 0 } :=
  ⟨⟨[(0, 0), (1, 0)], by decide, by decide⟩, rfl⟩

/-- **C5 (amended)** — a missing or incomplete viewpoint (feature center) is
a validation failure for the single-viewpoint and allocentric operations:
the handler returns the structured error for every oracle, so the oracle is
never consulted and nothing crashes.  Obstacles with fewer than 3 vertices
are NOT a validation failure: every successful response is computed from the
`≥ 3`-vertex-filtered obstacle set, with `obstacleCount` reporting its size.
(The heatmap operation takes no viewpoint, so the viewpoint clause is vacuous
for it.) -/
theorem viewpoint_validation_spec (oracle : Oracle) (clip : ClipOracle)
    (vreq : VisRequest) (areq : AlloRequest) (req : VisRequest) (d : VisData)
    (hv : viewpointValid vreq.viewpoint = none)
    (ha : viewpointValid areq.featureCenter = none)
    (hs : visibility_polygon_handler oracle (some req) = .ok d) :
    visibility_polygon_handler oracle (some vreq) =
      .error "Invalid viewpoint data".toList ∧
    allocentric_handler oracle clip (some areq) =
      .error "Invalid feature center".toList ∧
    d.obstacleCount = (filteredPolygons req.obstacles).length ∧
    d.visibilityPolygon =
      oracle d.viewpoint (filteredPolygons req.obstacles)
        (pyInt req.canvasWidth) (pyInt req.canvasHeight) 3000 := by
  obtain ⟨vp, hvp, rfl⟩ := vis_handler_ok_elim oracle req d hs
  refine ⟨?_, ?_, rfl, rfl⟩
  · simp only [visibility_polygon_handler, hv]
  · simp only [allocentric_handler, ha]

/-- Witness for `viewpoint_validation_spec`. -/
theorem viewpoint_validation_spec_witness :
    viewpointValid vreqBadVp.viewpoint = none ∧
    viewpointValid areqBadVp.featureCenter = none ∧
    visibility_polygon_handler constOracle (some reqKeep) = .ok visDataKeep ∧
    (visibility_polygon_handler constOracle (some vreqBadVp) =
        .error "Invalid viewpoint data".toList ∧
      allocentric_handler constOracle constClip (some areqBadVp) =
        .error "Invalid feature center".toList ∧
      visDataKeep.obstacleCount = (filteredPolygons reqKeep.obstacles).length ∧
      visDataKeep.visibilityPolygon =
        constOracle visDataKeep.viewpoint (filteredPolygons reqKeep.obstacles)
          (pyInt reqKeep.canvasWidth) (pyInt reqKeep.canvasHeight) 3000) :=
  ⟨rfl, rfl, rfl,
   viewpoint_validation_spec constOracle constClip vreqBadVp areqBadVp reqKeep
     visDataKeep rfl rfl rfl⟩

/-- **C9 (counterexample)** — success payloads do not include a count of
dropped items: adding a dropped item to the input leaves the payload
unchanged, both for the import operation (a path element decoding to fewer
than 3 points) and the visibility operation (an obstacle with fewer than 3
vertices), so no field of the payload can be a count of the drops. -/
theorem dropped_items_uncounted_counterexample :
    extractGeometry badElem = none ∧
    import_floorplan_handler vb0 [goodElem, badElem] =
      import_floorplan_handler vb0 [goodElem] ∧
    reqKeepPlusDropped.obstacles ≠ reqKeep.obstacles ∧
    visibility_polygon_handler constOracle (some reqKeepPlusDropped) =
      visibility_polygon_handler constOracle (some reqKeep) :=
  ⟨by decide, by decide, by decide, rfl⟩

/-- **C9 (amended)** — success payloads count the retained items, not the
dropped ones: the import payload's `obstacleCount` is the number of
geometries that survived cleaning, a dropped path element leaves the payload
identical, and a visibility success payload's `obstacleCount` is the size of
the `≥ 3`-vertex-filtered obstacle list (drop counts appear only in console
logs, not in any payload). -/
theorem retained_counts_in_payload (vb : ViewBox) (paths : List PathElem)
    (bad : PathElem) (hbad : extractGeometry bad = none)
    (oracle : Oracle) (req : VisRequest) (d : VisData)
    (hs : visibility_polygon_handler oracle (some req) = .ok d) :
    (import_floorplan_handler vb paths).obstacleCount = (clean_svg paths).length ∧
    import_floorplan_handler vb (paths ++ [bad]) = import_floorplan_handler vb paths ∧
    d.obstacleCount = (filteredPolygons req.obstacles).length := by
  obtain ⟨vp, hvp, rfl⟩ := vis_handler_ok_elim oracle req d hs
  refine ⟨rfl, ?_, rfl⟩
  simp [import_floorplan_handler, clean_svg, List.filterMap_append, hbad]

/-- Witness for `retained_counts_in_payload`. -/
theorem retained_counts_in_payload_witness :
    extractGeometry badElem = none ∧
    visibility_polygon_handler constOracle (some reqKeep) = .ok visDataKeep ∧
    ((import_floorplan_handler vb0 [goodElem]).obstacleCount =
        (clean_svg [goodElem]).length ∧
      import_floorplan_handler vb0 ([goodElem] ++ [badElem]) =
        import_floorplan_handler vb0 [goodElem] ∧
      visDataKeep.obstacleCount = (filteredPolygons reqKeep.obstacles).length) :=
  ⟨by decide, rfl,
   retained_counts_in_payload vb0 [goodElem] badElem (by decide) constOracle
     reqKeep visDataKeep rfl⟩

/-- **C3** — for every path string, the decoder's output contains no two
consecutive coordinate-identical points, and when it contains more than one
point its first and last points are not coordinate-identical (the redundant
explicit closing point is dropped). -/
theorem decoder_dedup_spec (s : List Char) :
    (parse_path_to_points s).Chain' (· ≠ ·) ∧
    (1 < (parse_path_to_points s).length →
      (parse_path_to_points s).head? ≠ (parse_path_to_points s).getLast?) :=
  dropClosingDup_spec (dedupConsecutive (runCommands (0, 0) (findCommandGroups s)))
    (chain_ne_dedupConsecutive _)

/-- Witness for `decoder_dedup_spec` on a path whose final explicit point
closes onto the first. -/
theorem decoder_dedup_spec_witness :
    1 < (parse_path_to_points "M0 0L5 0L5 5L0 0".toList).length ∧
    (parse_path_to_points "M0 0L5 0L5 5L0 0".toList).head? ≠
      (parse_path_to_points "M0 0L5 0L5 5L0 0".toList).getLast? ∧
    (parse_path_to_points "M0 0L5 0L5 5L0 0".toList).Chain' (· ≠ ·) :=
  ⟨by decide, (decoder_dedup_spec _).2 (by decide), (decoder_dedup_spec _).1⟩

/-- **C2** — heatmap grid semantics for every validated request with a
positive grid resolution and non-negative canvas: the grid has exactly
`⌊W/r⌋` columns and `⌊H/r⌋` rows, the tested cell center is
`((col+0.5)·r, (row+0.5)·r)`, and each in-range cell's score equals the
number of obstacle indices `i ≥ 1` of the `≥ 3`-vertex-filtered obstacle
list whose visibility polygon (queried from obstacle `i`'s vertex centroid
with obstacle `i` excluded) contains the cell center under the even-odd
ray-cast test. -/
theorem heatmap_grid_spec (oracle : Oracle) (req : HeatmapRequest) (gy gx : ℕ)
    (hr : 0 < req.gridResolution) (hW : 0 ≤ req.canvasWidth)
    (hH : 0 ≤ req.canvasHeight) (_hval : 2 ≤ req.obstacles.length)
    (hy : gy < heatNumY req) (hx : gx < heatNumX req) :
    (heatNumX req : ℤ) = ⌊req.canvasWidth / req.gridResolution⌋ ∧
    (heatNumY req : ℤ) = ⌊req.canvasHeight / req.gridResolution⌋ ∧
    cellCenter req.gridResolution gx gy =
      ((gx + (1 : ℚ) / 2) * req.gridResolution,
       (gy + (1 : ℚ) / 2) * req.gridResolution) ∧
    heatGridScores oracle req gy gx =
      ((List.range (filteredPolygons req.obstacles).length).drop 1).countP
        (fun i => is_point_in_polygon (cellCenter req.gridResolution gx gy)
          (visPolyFor oracle req (filteredPolygons req.obstacles) i)) := by
  have hXfloor : (heatNumX req : ℤ) = ⌊req.canvasWidth / req.gridResolution⌋ := by
    have hq : 0 ≤ req.canvasWidth / req.gridResolution := div_nonneg hW hr.le
    rw [heatNumX, pyInt_eq_floor _ hq]
    exact Int.toNat_of_nonneg (Int.floor_nonneg.mpr hq)
  have hYfloor : (heatNumY req : ℤ) = ⌊req.canvasHeight / req.gridResolution⌋ := by
    have hq : 0 ≤ req.canvasHeight / req.gridResolution := div_nonneg hH hr.le
    rw [heatNumY, pyInt_eq_floor _ hq]
    exact Int.toNat_of_nonneg (Int.floor_nonneg.mpr hq)
  refine ⟨hXfloor, hYfloor, ?_, ?_⟩
  · simp only [cellCenter, Prod.mk.injEq]
    constructor <;> ring
  · have hc := gridAccum_foldl_count (heatNumX req) (heatNumY req)
      req.gridResolution
      (visPolyFor oracle req (filteredPolygons req.obstacles))
      ((List.range (filteredPolygons req.obstacles).length).drop 1)
      (fun _ _ => 0) gy gx hy hx
    simpa [heatGridScores, objectIndices] using hc

/-- Witness for `heatmap_grid_spec` at the 1×1-cell request `reqHeat`. -/
theorem heatmap_grid_spec_witness :
    (0 : ℚ) < reqHeat.gridResolution ∧ 0 < heatNumY reqHeat ∧ 0 < heatNumX reqHeat ∧
    ((heatNumX reqHeat : ℤ) = ⌊reqHeat.canvasWidth / reqHeat.gridResolution⌋ ∧
      (heatNumY reqHeat : ℤ) = ⌊reqHeat.canvasHeight / reqHeat.gridResolution⌋ ∧
      cellCenter reqHeat.gridResolution 0 0 =
        ((0 + (1 : ℚ) / 2) * reqHeat.gridResolution,
         (0 + (1 : ℚ) / 2) * reqHeat.gridResolution) ∧
      heatGridScores triOracle reqHeat 0 0 =
        ((List.range (filteredPolygons reqHeat.obstacles).length).drop 1).countP
          (fun i => is_point_in_polygon (cellCenter reqHeat.gridResolution 0 0)
            (visPolyFor triOracle reqHeat (filteredPolygons reqHeat.obstacles) i))) :=
  ⟨by decide, by decide, by decide,
   heatmap_grid_spec triOracle reqHeat 0 0 (by decide) (by decide) (by decide)
     (by decide) (by decide) (by decide)⟩

/-- **C7** — in every emitted heatmap payload: every emitted cell's score is
at least 1 and its normalized value equals `score / maxScore` and lies in
`(0, 1]`; the number of emitted cells is at most the total number of grid
cells; and a cell's pixel is emitted if and only if its score is at least 1
(sparse representation: zero-score cells are omitted). -/
theorem heatmap_pixels_spec (oracle : Oracle) (req : HeatmapRequest)
    (d : HeatmapData) (h : visibility_heatmap_handler oracle (some req) = .ok d) :
    (∀ px ∈ d.pixels, 1 ≤ px.score ∧
      px.normalized = (px.score : ℚ) / d.maxScore ∧
      0 < px.normalized ∧ px.normalized ≤ 1) ∧
    d.pixels.length ≤ heatNumX req * heatNumY req ∧
    ∀ gy gx, gy < heatNumY req → gx < heatNumX req →
      (1 ≤ heatGridScores oracle req gy gx ↔
        mkHeatPixel req.gridResolution d.maxScore gx gy
          (heatGridScores oracle req gy gx) ∈ d.pixels) := by
  obtain ⟨hval, hx0, hy0, rfl⟩ := heatmap_handler_ok_elim oracle req d h
  dsimp only
  refine ⟨?_, heatPixels_length_le oracle req, ?_⟩
  · intro px hpx
    obtain ⟨gy, hgy, gx, hgx, hpos, rfl⟩ := (mem_heatPixels_iff oracle req px).mp hpx
    have hle : heatGridScores oracle req gy gx ≤ heatMaxScore oracle req :=
      heatGridScores_le_max oracle req gy gx hgy hgx
    have hmpos : 0 < heatMaxScore oracle req := lt_of_lt_of_le hpos hle
    have hq1 : (0 : ℚ) < (heatGridScores oracle req gy gx : ℚ) := by exact_mod_cast hpos
    have hq2 : (0 : ℚ) < (heatMaxScore oracle req : ℚ) := by exact_mod_cast hmpos
    refine ⟨hpos, ?_, ?_, ?_⟩
    · simp only [mkHeatPixel]
      rw [if_pos hmpos]
    · simp only [mkHeatPixel]
      rw [if_pos hmpos]
      exact div_pos hq1 hq2
    · simp only [mkHeatPixel]
      rw [if_pos hmpos]
      rw [div_le_one hq2]
      exact_mod_cast hle
  · intro gy gx hgy hgx
    constructor
    · intro hpos
      exact (mem_heatPixels_iff oracle req _).mpr ⟨gy, hgy, gx, hgx, hpos, rfl⟩
    · intro hmem
      obtain ⟨gy', hgy', gx', hgx', hpos', heq⟩ :=
        (mem_heatPixels_iff oracle req _).mp hmem
      have hs : heatGridScores oracle req gy gx = heatGridScores oracle req gy' gx' := by
        have hsc := congrArg HeatPixel.score heq
        simpa [mkHeatPixel] using hsc
      rw [hs]
      exact hpos'

/-- Witness for `heatmap_pixels_spec` at the 1×1-cell request `reqHeat`. -/
theorem heatmap_pixels_spec_witness :
    visibility_heatmap_handler triOracle (some reqHeat) = .ok heatDataExpected ∧
    ((∀ px ∈ heatDataExpected.pixels, 1 ≤ px.score ∧
        px.normalized = (px.score : ℚ) / heatDataExpected.maxScore ∧
        0 < px.normalized ∧ px.normalized ≤ 1) ∧
      heatDataExpected.pixels.length ≤ heatNumX reqHeat * heatNumY reqHeat ∧
      ∀ gy gx, gy < heatNumY reqHeat → gx < heatNumX reqHeat →
        (1 ≤ heatGridScores triOracle reqHeat gy gx ↔
          mkHeatPixel reqHeat.gridResolution heatDataExpected.maxScore gx gy
            (heatGridScores triOracle reqHeat gy gx) ∈ heatDataExpected.pixels)) :=
  ⟨by rfl, heatmap_pixels_spec triOracle reqHeat heatDataExpected (by rfl)⟩

/-- **C1 (counterexample)** — a later (inner/doubled) sub-path may re-emit a
coordinate of the outer boundary, in which case that coordinate does appear
in the extracted obstacle's point list: for `doubledPath`, the second
sub-path emits `(0,0)`, which is also in the extracted obstacle. -/
theorem inner_point_in_obstacle_counterexample :
    1 < (subpathsOf doubledPath).length ∧
    ((0 : ℚ), (0 : ℚ)) ∈ parse_path_to_points ((subpathsOf doubledPath).getD 1 []) ∧
    ((0 : ℚ), (0 : ℚ)) ∈ (extractObstacle (some doubledPath)).getD [] :=
  ⟨by decide, by decide, by decide⟩

/-- **C1 (amended)** — for every path element with a non-empty description:
the extractor splits the description at every `M`/`m` move command, decodes
only the first (stripped, non-empty) sub-path, and appends an obstacle
exactly when that decoding yields at least 3 points; the obstacle's point
list equals that decoding, so every coordinate in an extracted obstacle is
emitted by the first sub-path (a later sub-path's coordinate appears only
when the first sub-path also emits it). -/
theorem first_subpath_extraction_spec (d : List Char) (hne : d ≠ []) :
    (extractObstacle (some d) =
      match (subpathsOf d).head? with
      | none => none
      | some outer =>
        if 3 ≤ (parse_path_to_points outer).length
        then some (parse_path_to_points outer) else none) ∧
    ∀ pts p, extractObstacle (some d) = some pts → p ∈ pts →
      ∃ outer, (subpathsOf d).head? = some outer ∧
        p ∈ parse_path_to_points outer := by
  have hmain : extractObstacle (some d) =
      match (subpathsOf d).head? with
      | none => none
      | some outer =>
        if 3 ≤ (parse_path_to_points outer).length
        then some (parse_path_to_points outer) else none := by
    simp only [extractObstacle, if_neg hne]
    cases hsub : subpathsOf d with
    | nil => simp
    | cons outer rest => simp
  refine ⟨hmain, ?_⟩
  intro pts p hpts hp
  rw [hmain] at hpts
  cases hsub : (subpathsOf d).head? with
  | none =>
    rw [hsub] at hpts
    dsimp only at hpts
    exact absurd hpts (by simp)
  | some outer =>
    rw [hsub] at hpts
    dsimp only at hpts
    by_cases h3 : 3 ≤ (parse_path_to_points outer).length
    · rw [if_pos h3] at hpts
      exact ⟨outer, rfl, by rwa [Option.some_inj.mp hpts]⟩
    · rw [if_neg h3] at hpts
      exact absurd hpts (by simp)

/-- Witness for `first_subpath_extraction_spec` at `doubledPath`. -/
theorem first_subpath_extraction_spec_witness :
    doubledPath ≠ [] ∧
    ((extractObstacle (some doubledPath) =
        match (subpathsOf doubledPath).head? with
        | none => none
        | some outer =>
          if 3 ≤ (parse_path_to_points outer).length
          then some (parse_path_to_points outer) else none) ∧
      ∀ pts p, extractObstacle (some doubledPath) = some pts → p ∈ pts →
        ∃ outer, (subpathsOf doubledPath).head? = some outer ∧
          p ∈ parse_path_to_points outer) :=
  ⟨by decide, first_subpath_extraction_spec doubledPath (by decide)⟩
